import Mathlib

/-
Verification development for the essay-mentor-api fallback execution engine:
a shallow embedding of the circuit breaker, retry logic, cost calculator,
usage tracker record construction, and the fallback manager orchestration
(app/utils/fallback and app/utils/tracking), with theorems settling the
behavioral claims about them.

Python floats are modelled as rationals; wall-clock readings and random
jitter draws are explicit parameters; the LLM adapter supplied by the
caller is modelled as an oracle giving the outcome of each physical call.
-/

/-- One entry of `CircuitBreaker.breakers` (a Python dict value holding
`state`, `failure_count`, `last_failure`, `half_open_calls`). -/
structure BreakerEntry where
  state : String
  failure_count : Nat
  last_failure : ℚ
  half_open_calls : Nat
deriving DecidableEq

/-- `CircuitBreaker` from app/utils/fallback/circuit_breaker.py: the
threshold and timeout set in `__init__` (defaults 5 and 300) and the
per-model dict `self.breakers`, modelled as a partial map. -/
structure CircuitBreaker where
  failure_threshold : Nat
  recovery_timeout : ℚ
  breakers : String → Option BreakerEntry

/-- A fresh breaker: `CircuitBreaker(failure_threshold, recovery_timeout)`
with an empty `breakers` dict. -/
def CircuitBreaker.init (failure_threshold : Nat) (recovery_timeout : ℚ) : CircuitBreaker :=
  ⟨failure_threshold, recovery_timeout, fun _ => none⟩

/-- Dict update `self.breakers[model] = b`. -/
def setBreaker (f : String → Option BreakerEntry) (model : String) (b : BreakerEntry) :
    String → Option BreakerEntry :=
  fun m => if m = model then some b else f m

/-- `CircuitBreaker.is_open(model)`. The wall-clock reading `time.time()`
is the explicit argument `now`. Returns the boolean result together with
the possibly mutated breaker (the open-to-half_open transition mutates the
entry in place). -/
def CircuitBreaker.is_open (cb : CircuitBreaker) (now : ℚ) (model : String) :
    Bool × CircuitBreaker :=
  match cb.breakers model with
  | none => (false, cb)
  | some b =>
    if b.state = "open" then
      if cb.recovery_timeout < now - b.last_failure then
        let b2 : BreakerEntry := { b with state := "half_open", half_open_calls := 0 }
        (false, { cb with breakers := setBreaker cb.breakers model b2 })
      else (true, cb)
    else (false, cb)

/-- `CircuitBreaker.record_failure(model)`: create the entry lazily,
increment `failure_count`, stamp `last_failure`, and open the breaker once
`failure_count >= failure_threshold`. -/
def CircuitBreaker.record_failure (cb : CircuitBreaker) (now : ℚ) (model : String) :
    CircuitBreaker :=
  let b0 := (cb.breakers model).getD ⟨"closed", 0, 0, 0⟩
  let b1 : BreakerEntry := { b0 with failure_count := b0.failure_count + 1, last_failure := now }
  let b2 := if cb.failure_threshold ≤ b1.failure_count then { b1 with state := "open" } else b1
  { cb with breakers := setBreaker cb.breakers model b2 }

/-- `CircuitBreaker.record_success(model)`: if an entry exists, reset
`failure_count` to 0 and the state to `"closed"`; otherwise do nothing. -/
def CircuitBreaker.record_success (cb : CircuitBreaker) (model : String) : CircuitBreaker :=
  match cb.breakers model with
  | none => cb
  | some b =>
    let b2 : BreakerEntry := { b with failure_count := 0, state := "closed" }
    { cb with breakers := setBreaker cb.breakers model b2 }

/-- `CircuitBreaker.get_state(model)`. -/
def CircuitBreaker.get_state (cb : CircuitBreaker) (model : String) : String :=
  match cb.breakers model with
  | none => "closed"
  | some b => b.state

/-- `CircuitBreaker.get_failure_count(model)`. -/
def CircuitBreaker.get_failure_count (cb : CircuitBreaker) (model : String) : Nat :=
  match cb.breakers model with
  | none => 0
  | some b => b.failure_count

/-- `RetryConfig` from app/models/usage.py (pydantic model): per-model
retry parameters. -/
structure RetryConfig where
  model : String
  max_retries : Nat
  base_delay : ℚ
  max_delay : ℚ
  exponential_backoff : Bool
  retryable_errors : List String
deriving DecidableEq

/-- `RetryLogic.get_retry_config(model)`: the static table built by
`RetryLogic._get_default_retry_configs`, with the `"default"` entry for
unknown models (`self.retry_configs.get(model, self.retry_configs["default"])`). -/
def get_retry_config (model : String) : RetryConfig :=
  if model = "gpt-4o" then
    ⟨"gpt-4o", 2, 2, 10, true, ["rate_limit", "timeout", "service_unavailable"]⟩
  else if model = "gpt-4o-mini" then
    ⟨"gpt-4o-mini", 3, 3/2, 8, true,
      ["rate_limit", "timeout", "service_unavailable", "connection_error"]⟩
  else if model = "gpt-3.5-turbo" then
    ⟨"gpt-3.5-turbo", 5, 1, 5, true,
      ["rate_limit", "timeout", "service_unavailable", "connection_error",
        "internal_server_error"]⟩
  else
    ⟨"default", 3, 1, 5, true, ["rate_limit", "timeout", "service_unavailable"]⟩

/-- `RetryLogic.calculate_delay(retry_count, base_delay, max_delay, exponential)`.
The draw `random.uniform(0.1, 0.3)` is the explicit argument `u` (theorems
hypothesize `1/10 ≤ u ≤ 3/10`). -/
def calculate_delay (retry_count : Nat) (base_delay max_delay : ℚ)
    (exponential : Bool) (u : ℚ) : ℚ :=
  if exponential = false then base_delay
  else
    let delay := min (base_delay * 2 ^ retry_count) max_delay
    delay + u * delay

/-- `CostCalculator.OPENAI_PRICING`: static per-model price table, per 1K
tokens, as `(input, output)` pairs. -/
def OPENAI_PRICING (model : String) : Option (ℚ × ℚ) :=
  if model = "gpt-4o" then some (5/1000, 15/1000)
  else if model = "gpt-4o-mini" then some (15/100000, 6/10000)
  else if model = "gpt-4-turbo" then some (1/100, 3/100)
  else if model = "gpt-3.5-turbo" then some (5/10000, 15/10000)
  else none

/-- `CostCalculator.calculate_cost(provider, model, tokens_input, tokens_output)`:
priced only when `provider == "openai"` and the model is in the table;
all other providers and models cost 0. -/
def calculate_cost (provider model : String) (tokens_input tokens_output : Nat) : ℚ :=
  if provider = "openai" then
    match OPENAI_PRICING model with
    | some pricing =>
        (tokens_input : ℚ) / 1000 * pricing.1 + (tokens_output : ℚ) / 1000 * pricing.2
    | none => 0
  else 0

/-- `estimate_tokens(text)` from app/utils/tracking: `len(text) // 4`. -/
def estimate_tokens (text : String) : Nat :=
  text.length / 4

/-- Helper for the error classifier: whether `pattern` occurs as a
contiguous run inside `text` (Python `pattern in text`). -/
def isSubChars (pattern : List Char) : List Char → Bool
  | [] => pattern.isPrefixOf []
  | c :: cs => pattern.isPrefixOf (c :: cs) || isSubChars pattern cs

/-- Python `str.lower()` applied to the character sequence of a string. -/
def lowerString (s : String) : List Char :=
  s.toList.map Char.toLower

/-- `ErrorClassifier.retryable_patterns` from
app/utils/fallback/error_classifier.py, in dict insertion order. -/
def retryable_patterns : List (String × List String) :=
  [("rate_limit", ["rate limit", "429", "too many requests"]),
   ("timeout", ["timeout", "timed out", "connection timeout"]),
   ("service_unavailable", ["service unavailable", "503", "server error"]),
   ("connection_error", ["connection", "network", "connection refused"]),
   ("internal_server_error", ["internal server error", "500", "server error"])]

/-- `ErrorClassifier.non_retryable_patterns`, in dict insertion order. -/
def non_retryable_patterns : List (String × List String) :=
  [("invalid_api_key", ["invalid api key", "401", "unauthorized", "authentication"]),
   ("model_not_found", ["model not found", "404", "model does not exist"]),
   ("invalid_request", ["invalid request", "400", "bad request", "malformed"]),
   ("quota_exceeded", ["quota exceeded", "billing", "payment required"]),
   ("content_filter", ["content filter", "policy violation", "inappropriate"])]

/-- `ErrorClassifier.classify_error(error)` applied to the error message
`str(error)`: lower-case the message, scan the retryable table first, then
the non-retryable table, first substring match wins; unmatched messages
default to ("unknown", retryable). -/
def classify_error (message : String) : String × Bool :=
  let m := lowerString message
  match retryable_patterns.find? (fun p => p.2.any fun pat => isSubChars pat.toList m) with
  | some p => (p.1, true)
  | none =>
    match non_retryable_patterns.find? (fun p => p.2.any fun pat => isSubChars pat.toList m)
        with
    | some p => (p.1, false)
    | none => ("unknown", true)

/-- Whether `Function(function)` succeeds: the `Function` enum of
app/models/usage.py accepts exactly these four values. `log_usage` builds
`Function(function)` (and `Provider(provider)`, always "openai" here, and
`UsageStatus(status)`, always valid here), so with any other function
string every `log_usage` call raises this deterministic ValueError. A
failure of the database write itself never raises: `insert_usage` catches
every exception and returns False. -/
def valid_function (function : String) : Bool :=
  function = "ai_detection" || function = "feedback" || function = "guidance" ||
    function = "section_check"

/-- `str(e)` for the ValueError raised by `Function(function)` on an
invalid value: the standard enum message. -/
def function_enum_error (function : String) : String :=
  "'" ++ function ++ "' is not a valid Function"

/-- Folding consecutive `record_failure(model)` calls, one per timestamp in
the list, with no intervening `record_success`. -/
def record_failures (cb : CircuitBreaker) (model : String) : List ℚ → CircuitBreaker
  | [] => cb
  | t :: ts => record_failures (cb.record_failure t model) model ts

-- Basic lemmas about the breaker map.

theorem setBreaker_same (f : String → Option BreakerEntry) (model : String) (b : BreakerEntry) :
    setBreaker f model b model = some b := by
  simp [setBreaker]

theorem setBreaker_other (f : String → Option BreakerEntry) (model : String) (b : BreakerEntry)
    (m : String) (h : m ≠ model) : setBreaker f model b m = f m := by
  simp [setBreaker, h]

theorem record_failure_threshold (cb : CircuitBreaker) (now : ℚ) (model : String) :
    (cb.record_failure now model).failure_threshold = cb.failure_threshold := rfl

theorem record_failure_timeout (cb : CircuitBreaker) (now : ℚ) (model : String) :
    (cb.record_failure now model).recovery_timeout = cb.recovery_timeout := rfl

theorem record_failure_other (cb : CircuitBreaker) (now : ℚ) (model m : String)
    (h : m ≠ model) : (cb.record_failure now model).breakers m = cb.breakers m := by
  simp [CircuitBreaker.record_failure, setBreaker, h]

theorem record_failure_count (cb : CircuitBreaker) (now : ℚ) (model : String) :
    (cb.record_failure now model).get_failure_count model = cb.get_failure_count model + 1 := by
  unfold CircuitBreaker.record_failure CircuitBreaker.get_failure_count
  cases h : cb.breakers model <;>
    simp [h, setBreaker] <;> split <;> simp

theorem record_failures_threshold (model : String) (ts : List ℚ) :
    ∀ cb : CircuitBreaker, (record_failures cb model ts).failure_threshold = cb.failure_threshold := by
  induction ts with
  | nil => intro cb; rfl
  | cons t ts ih => intro cb; simpa [record_failures] using ih (cb.record_failure t model)

theorem record_failures_count (model : String) (ts : List ℚ) :
    ∀ cb : CircuitBreaker,
      (record_failures cb model ts).get_failure_count model =
        cb.get_failure_count model + ts.length := by
  induction ts with
  | nil => intro cb; simp [record_failures]
  | cons t ts ih =>
      intro cb
      simp only [record_failures, List.length_cons]
      rw [ih (cb.record_failure t model), record_failure_count]
      omega

theorem record_failures_append (model : String) (ts1 ts2 : List ℚ) :
    ∀ cb : CircuitBreaker,
      record_failures cb model (ts1 ++ ts2) =
        record_failures (record_failures cb model ts1) model ts2 := by
  induction ts1 with
  | nil => intro cb; simp [record_failures]
  | cons t ts ih => intro cb; simpa [record_failures] using ih (cb.record_failure t model)

theorem is_open_of_no_entry (cb : CircuitBreaker) (now : ℚ) (model : String)
    (h : cb.breakers model = none) : cb.is_open now model = (false, cb) := by
  unfold CircuitBreaker.is_open
  rw [h]

theorem record_failures_timeout (model : String) (ts : List ℚ) :
    ∀ cb : CircuitBreaker, (record_failures cb model ts).recovery_timeout = cb.recovery_timeout := by
  induction ts with
  | nil => intro cb; rfl
  | cons t ts ih => intro cb; simpa [record_failures] using ih (cb.record_failure t model)

theorem getD_failure_count (cb : CircuitBreaker) (model : String) :
    ((cb.breakers model).getD ⟨"closed", 0, 0, 0⟩).failure_count = cb.get_failure_count model := by
  unfold CircuitBreaker.get_failure_count
  cases cb.breakers model <;> simp

/-- Claim C4 (amended): with `exponential=false` the delay is exactly `base`,
independent of `retry_count`; with `exponential=true` the returned value is
`d + u * d` for `d = min(base * 2 ^ retry_count, max_delay)` and the jitter
draw `u ∈ [0.1, 0.3]`, hence it lies in `[d, 1.3 * d]`, and the non-jittered
component `d` never exceeds `max_delay`. (The original claim placed the value
in `[base * 2 ^ retry_count, base * 2 ^ retry_count * 1.3]`, which fails once
the cap `max_delay` binds.) -/
theorem calculate_delay_spec (retry_count : Nat) (base_delay max_delay u : ℚ)
    (hb : 0 ≤ base_delay) (hm : 0 ≤ max_delay) (hu1 : 1/10 ≤ u) (hu2 : u ≤ 3/10) :
    calculate_delay retry_count base_delay max_delay false u = base_delay ∧
    calculate_delay retry_count base_delay max_delay true u =
      min (base_delay * 2 ^ retry_count) max_delay +
        u * min (base_delay * 2 ^ retry_count) max_delay ∧
    min (base_delay * 2 ^ retry_count) max_delay ≤
      calculate_delay retry_count base_delay max_delay true u ∧
    calculate_delay retry_count base_delay max_delay true u ≤
      (13/10) * min (base_delay * 2 ^ retry_count) max_delay ∧
    min (base_delay * 2 ^ retry_count) max_delay ≤ max_delay := by
  have hd : (0 : ℚ) ≤ min (base_delay * 2 ^ retry_count) max_delay :=
    le_min (by positivity) hm
  have hform : calculate_delay retry_count base_delay max_delay true u =
      min (base_delay * 2 ^ retry_count) max_delay +
        u * min (base_delay * 2 ^ retry_count) max_delay := by
    unfold calculate_delay
    simp
  refine ⟨rfl, hform, ?_, ?_, min_le_right _ _⟩
  · rw [hform]
    nlinarith [mul_nonneg (le_trans (by norm_num : (0:ℚ) ≤ 1/10) hu1) hd]
  · rw [hform]
    nlinarith [mul_le_mul_of_nonneg_right hu2 hd]

/-- Witness for `calculate_delay_spec` at `retry_count=0`, `base=1`,
`max=5`, `u=1/10`. -/
theorem calculate_delay_spec_witness :
    calculate_delay 0 1 5 false (1/10) = 1 ∧
    calculate_delay 0 1 5 true (1/10) =
      min ((1 : ℚ) * 2 ^ 0) 5 + (1/10) * min ((1 : ℚ) * 2 ^ 0) 5 ∧
    min ((1 : ℚ) * 2 ^ 0) 5 ≤ calculate_delay 0 1 5 true (1/10) ∧
    calculate_delay 0 1 5 true (1/10) ≤ (13/10) * min ((1 : ℚ) * 2 ^ 0) 5 ∧
    min ((1 : ℚ) * 2 ^ 0) 5 ≤ 5 :=
  calculate_delay_spec 0 1 5 (1/10) (by norm_num) (by norm_num) (by norm_num) (by norm_num)

/-- Counterexample to claim C4 as stated: at `retry_count=3`, `base=1`,
`max=5`, jitter draw `u=0.1`, the cap binds and the returned delay `5.5`
falls below the claimed lower bound `base * 2 ^ retry_count = 8`. -/
theorem calculate_delay_cap_counterexample :
    calculate_delay 3 1 5 true (1/10) = 11/2 ∧
    ¬ ((1 : ℚ) * 2 ^ 3 ≤ calculate_delay 3 1 5 true (1/10)) := by
  constructor
  · unfold calculate_delay
    rw [min_def]
    norm_num
  · unfold calculate_delay
    rw [min_def]
    norm_num

/-- Claim C5: starting from no entry or a closed entry for `model`, after
exactly `failure_threshold` consecutive `record_failure` calls (times `ts`
then `lastT`) with no intervening `record_success`, the breaker state is
`"open"` and `is_open` returns true when checked within `recovery_timeout`
of the last failure; and a single `record_success` from any state resets
`failure_count` to 0, the state to `"closed"`, and makes `is_open` false. -/
theorem breaker_threshold_opens_and_success_resets (cb : CircuitBreaker) (model : String)
    (ts : List ℚ) (lastT now : ℚ)
    (hstart : cb.breakers model = none ∨
      ∃ b, cb.breakers model = some b ∧ b.state = "closed")
    (hlen : ts.length + 1 = cb.failure_threshold)
    (hnow : now - lastT ≤ cb.recovery_timeout) :
    (((record_failures cb model (ts ++ [lastT])).is_open now model).1 = true ∧
      (record_failures cb model (ts ++ [lastT])).get_state model = "open") ∧
    ∀ (cb2 : CircuitBreaker) (t2 : ℚ),
      (cb2.record_success model).get_failure_count model = 0 ∧
      (cb2.record_success model).get_state model = "closed" ∧
      ((cb2.record_success model).is_open t2 model).1 = false := by
  constructor
  · have happ : record_failures cb model (ts ++ [lastT]) =
        (record_failures cb model ts).record_failure lastT model := by
      rw [record_failures_append]
      rfl
    have hth : (record_failures cb model ts).failure_threshold = cb.failure_threshold :=
      record_failures_threshold model ts cb
    have hcount : (record_failures cb model ts).get_failure_count model =
        cb.get_failure_count model + ts.length :=
      record_failures_count model ts cb
    have hto : (record_failures cb model ts).recovery_timeout = cb.recovery_timeout :=
      record_failures_timeout model ts cb
    have hcond : (record_failures cb model ts).failure_threshold ≤
        (((record_failures cb model ts).breakers model).getD ⟨"closed", 0, 0, 0⟩).failure_count + 1 := by
      rw [getD_failure_count, hcount, hth, ← hlen]
      omega
    have hbreak : (record_failures cb model (ts ++ [lastT])).breakers model =
        some ⟨"open",
          (((record_failures cb model ts).breakers model).getD ⟨"closed", 0, 0, 0⟩).failure_count + 1,
          lastT,
          (((record_failures cb model ts).breakers model).getD ⟨"closed", 0, 0, 0⟩).half_open_calls⟩ := by
      rw [happ]
      unfold CircuitBreaker.record_failure
      simp only [if_pos hcond, setBreaker_same]
    have hto2 : (record_failures cb model (ts ++ [lastT])).recovery_timeout = cb.recovery_timeout :=
      record_failures_timeout model (ts ++ [lastT]) cb
    constructor
    · have hnl : ¬ (cb.recovery_timeout < now - lastT) := not_lt.mpr hnow
      unfold CircuitBreaker.is_open
      rw [hbreak, hto2]
      simp [hnl]
    · unfold CircuitBreaker.get_state
      rw [hbreak]
  · intro cb2 t2
    cases h : cb2.breakers model with
    | none =>
        refine ⟨?_, ?_, ?_⟩
        · unfold CircuitBreaker.record_success CircuitBreaker.get_failure_count
          rw [h]
          simp [h]
        · unfold CircuitBreaker.record_success CircuitBreaker.get_state
          rw [h]
          simp [h]
        · unfold CircuitBreaker.record_success CircuitBreaker.is_open
          rw [h]
          simp [h]
    | some b =>
        refine ⟨?_, ?_, ?_⟩
        · unfold CircuitBreaker.record_success CircuitBreaker.get_failure_count
          rw [h]
          simp [setBreaker_same]
        · unfold CircuitBreaker.record_success CircuitBreaker.get_state
          rw [h]
          simp [setBreaker_same]
        · unfold CircuitBreaker.record_success CircuitBreaker.is_open
          rw [h]
          simp [setBreaker_same]

/-- Witness for `breaker_threshold_opens_and_success_resets`: fresh breaker
with threshold 5 and timeout 300, failures at times 1..5, checked at time 10. -/
theorem breaker_threshold_witness :
    (((record_failures (CircuitBreaker.init 5 300) "gpt-4o"
        ([1, 2, 3, 4] ++ [5])).is_open 10 "gpt-4o").1 = true ∧
      (record_failures (CircuitBreaker.init 5 300) "gpt-4o"
        ([1, 2, 3, 4] ++ [5])).get_state "gpt-4o" = "open") ∧
    ∀ (cb2 : CircuitBreaker) (t2 : ℚ),
      (cb2.record_success "gpt-4o").get_failure_count "gpt-4o" = 0 ∧
      (cb2.record_success "gpt-4o").get_state "gpt-4o" = "closed" ∧
      ((cb2.record_success "gpt-4o").is_open t2 "gpt-4o").1 = false :=
  breaker_threshold_opens_and_success_resets (CircuitBreaker.init 5 300) "gpt-4o"
    [1, 2, 3, 4] 5 10 (Or.inl rfl) rfl (by norm_num [CircuitBreaker.init])

/-- Breaker used by the C6 theorems: open for `"gpt-4o"` with 5 recorded
failures, the last at time 0, threshold 5 and timeout 300. -/
def cbOpen : CircuitBreaker :=
  ⟨5, 300, fun m => if m = "gpt-4o" then some ⟨"open", 5, 0, 0⟩ else none⟩

/-- Claim C6 (amended): if the breaker for `model` is open and more than
`recovery_timeout` has elapsed since the last failure, the next `is_open`
check returns false, transitions the entry to `"half_open"` and resets
`half_open_calls` to 0 while keeping `failure_count`; every further
`is_open` check before a new failure also returns false (the transition,
not the false result, happens exactly once), and a single subsequent
`record_failure` re-opens the breaker whenever the retained
`failure_count + 1` still reaches the threshold. (The original claim that
the false result occurs exactly once before re-opening fails: a second
check with no intervening failure returns false again.) -/
theorem breaker_recovery_half_open (cb : CircuitBreaker) (model : String) (b : BreakerEntry)
    (t : ℚ) (hb : cb.breakers model = some b) (hopen : b.state = "open")
    (helapsed : cb.recovery_timeout < t - b.last_failure) :
    (cb.is_open t model).1 = false ∧
    ((cb.is_open t model).2).get_state model = "half_open" ∧
    ((cb.is_open t model).2).get_failure_count model = b.failure_count ∧
    (∃ b2, ((cb.is_open t model).2).breakers model = some b2 ∧ b2.half_open_calls = 0) ∧
    (∀ t2, (((cb.is_open t model).2).is_open t2 model).1 = false) ∧
    (cb.failure_threshold ≤ b.failure_count + 1 →
      ∀ t3, (((cb.is_open t model).2).record_failure t3 model).get_state model = "open") := by
  have hres : cb.is_open t model =
      (false, { cb with
        breakers := setBreaker cb.breakers model ⟨"half_open", b.failure_count, b.last_failure, 0⟩ }) := by
    unfold CircuitBreaker.is_open
    rw [hb]
    simp [hopen, helapsed]
  rw [hres]
  refine ⟨rfl, ?_, ?_, ?_, ?_, ?_⟩
  · unfold CircuitBreaker.get_state
    simp [setBreaker_same]
  · unfold CircuitBreaker.get_failure_count
    simp [setBreaker_same]
  · exact ⟨_, setBreaker_same _ _ _, rfl⟩
  · intro t2
    unfold CircuitBreaker.is_open
    simp [setBreaker_same]
  · intro hth t3
    unfold CircuitBreaker.record_failure CircuitBreaker.get_state
    simp [setBreaker_same, hth]

/-- Witness for `breaker_recovery_half_open` on `cbOpen` at time 301. -/
theorem breaker_recovery_witness :
    (cbOpen.is_open 301 "gpt-4o").1 = false ∧
    ((cbOpen.is_open 301 "gpt-4o").2).get_state "gpt-4o" = "half_open" ∧
    ((cbOpen.is_open 301 "gpt-4o").2).get_failure_count "gpt-4o" = 5 ∧
    (∃ b2, ((cbOpen.is_open 301 "gpt-4o").2).breakers "gpt-4o" = some b2 ∧
      b2.half_open_calls = 0) ∧
    (∀ t2, (((cbOpen.is_open 301 "gpt-4o").2).is_open t2 "gpt-4o").1 = false) ∧
    (cbOpen.failure_threshold ≤ 5 + 1 →
      ∀ t3, (((cbOpen.is_open 301 "gpt-4o").2).record_failure t3 "gpt-4o").get_state
        "gpt-4o" = "open") :=
  breaker_recovery_half_open cbOpen "gpt-4o" ⟨"open", 5, 0, 0⟩ 301
    (by simp [cbOpen]) rfl (by norm_num [cbOpen])

/-- Counterexample to claim C6 as stated: on `cbOpen` (open, last failure
at time 0, timeout 300) the check at time 301 returns false and transitions
to half_open, and a second check at time 302 with no intervening
`record_failure` returns false again — the false result does not occur
exactly once before a re-opening failure. -/
theorem half_open_false_twice_counterexample :
    ((cbOpen.is_open 301 "gpt-4o").1 = false) ∧
    (((cbOpen.is_open 301 "gpt-4o").2).get_state "gpt-4o" = "half_open") ∧
    ((((cbOpen.is_open 301 "gpt-4o").2).is_open 302 "gpt-4o").1 = false) := by
  refine ⟨?_, ?_, ?_⟩ <;>
    norm_num [cbOpen, CircuitBreaker.is_open, CircuitBreaker.get_state, setBreaker] <;>
    split <;> rfl

/-- Claim C9: for `provider="openai"` and a model in the static price
table, `calculate_cost` is `(tokens_input/1000) * input_price +
(tokens_output/1000) * output_price`; for any model absent from the table
or any other provider, the cost is 0. -/
theorem calculate_cost_spec (provider model : String) (tokens_input tokens_output : Nat) :
    (∀ pIn pOut : ℚ, OPENAI_PRICING model = some (pIn, pOut) → provider = "openai" →
      calculate_cost provider model tokens_input tokens_output =
        (tokens_input : ℚ) / 1000 * pIn + (tokens_output : ℚ) / 1000 * pOut) ∧
    ((OPENAI_PRICING model = none ∨ provider ≠ "openai") →
      calculate_cost provider model tokens_input tokens_output = 0) := by
  constructor
  · intro pIn pOut hp hprov
    subst hprov
    unfold calculate_cost
    rw [if_pos rfl, hp]
  · intro h
    unfold calculate_cost
    rcases h with h | h
    · rw [h]
      simp
    · rw [if_neg h]

/-- Witness for `calculate_cost_spec`: `gpt-4o` at 2000 input and 1000
output tokens on openai, and an unpriced self-hosted model on ollama. -/
theorem calculate_cost_witness :
    calculate_cost "openai" "gpt-4o" 2000 1000 =
      (2000 : ℚ) / 1000 * (5/1000) + (1000 : ℚ) / 1000 * (15/1000) ∧
    calculate_cost "ollama" "llama3.1" 2000 1000 = 0 :=
  ⟨(calculate_cost_spec "openai" "gpt-4o" 2000 1000).1 (5/1000) (15/1000) rfl rfl,
   (calculate_cost_spec "ollama" "llama3.1" 2000 1000).2 (Or.inr (by decide))⟩

/-- `TokenUsage` record as constructed by `TokenTracker.log_usage`
(app/utils/tracking): `tokens_total` is input + output, `cost_usd` comes
from the cost calculator. The synthetic id and timestamp are omitted. -/
structure TokenUsage where
  provider : String
  model : String
  function : String
  tokens_input : Nat
  tokens_output : Nat
  tokens_total : Nat
  cost_usd : ℚ
  response_time_ms : Nat
  status : String
  error_message : Option String
  fallback_model : Option String
  retry_count : Nat
deriving DecidableEq

/-- The record appended by one successful `log_usage` call. -/
def log_usage_record (provider model function : String)
    (tokens_input tokens_output response_time_ms : Nat) (status : String)
    (error_message fallback_model : Option String) (retry_count : Nat) : TokenUsage :=
  ⟨provider, model, function, tokens_input, tokens_output, tokens_input + tokens_output,
    calculate_cost provider model tokens_input tokens_output,
    response_time_ms, status, error_message, fallback_model, retry_count⟩

/-- `FallbackConfig` from app/models/usage.py. -/
structure FallbackConfig where
  function : String
  primary_model : String
  fallback_chain : List String
  max_retries_per_model : Nat
  base_delay_seconds : ℚ
  max_delay_seconds : ℚ
  exponential_backoff : Bool
deriving DecidableEq

/-- `FallbackManager._get_default_fallback_configs`: the per-function
config dict built in `__init__`, as a partial map. -/
def default_fallback_configs (function : String) : Option FallbackConfig :=
  if function = "ai_detection" then
    some ⟨"ai_detection", "gpt-4o", ["gpt-4o-mini", "gpt-3.5-turbo"], 2, 1, 5, true⟩
  else if function = "feedback" then
    some ⟨"feedback", "gpt-4o", ["gpt-4o-mini", "gpt-3.5-turbo"], 3, 3/2, 8, true⟩
  else if function = "guidance" then
    some ⟨"guidance", "gpt-4o-mini", ["gpt-3.5-turbo"], 3, 1, 5, true⟩
  else if function = "section_check" then
    some ⟨"section_check", "gpt-4o-mini", ["gpt-3.5-turbo"], 3, 1, 5, true⟩
  else none

/-- `FallbackManager.get_fallback_chain(function)`:
`[primary_model] + fallback_chain`, or the default `["gpt-4o-mini"]` when
the function is unknown. The config table is a parameter so that theorems
can compare managers holding different tables. -/
def get_fallback_chain (configs : String → Option FallbackConfig) (function : String) :
    List String :=
  match configs function with
  | none => ["gpt-4o-mini"]
  | some config => config.primary_model :: config.fallback_chain

/-- `FallbackResult` dataclass from app/utils/fallback. -/
structure FallbackResult where
  success : Bool
  response : Option String
  model_used : Option String
  retry_count : Nat
  error_message : Option String
  fallback_reason : Option String
deriving DecidableEq

/-- Outcome of one physical adapter call inside the try block of
`execute_with_fallback`: `generate` returns a response (`ok`), or it
raises an error whose classifier verdict is `retryable` (`adapterError`;
the adapter error message is environment-chosen, so the verdict the
classifier reaches on it is supplied by the environment). The success-path
`log_usage` call is not part of this outcome: it raises exactly when the
function string fails the `Function` enum validation (see
`valid_function`), and a database write failure is swallowed inside
`insert_usage` and never raises. -/
inductive AttemptOutcome where
  | ok (response : String)
  | adapterError (retryable : Bool)
deriving DecidableEq

/-- Ambient behavior of one `execute_with_fallback` invocation: outcome of
the k-th physical adapter call, its measured response time, the k-th
jitter draw, and the wall clock. -/
structure Env where
  attempt : Nat → AttemptOutcome
  respTime : Nat → Nat
  jitter : Nat → ℚ
  now : ℚ

/-- Mutable state threaded through one invocation: the shared circuit
breaker, the usage rows handed to the database manager so far (a failed
database write is swallowed by `insert_usage` returning False and does
not affect control flow), the number of physical adapter calls made, and
the delays slept. -/
structure RunState where
  cb : CircuitBreaker
  logs : List TokenUsage
  calls : Nat
  delays : List ℚ

/-- The `for retry_count in range(retry_config.max_retries + 1)` loop of
`execute_with_fallback` for one model, with `fuel` the number of loop
iterations remaining (entered with `max_retries + 1`). Returns `some
result` on success (early return) and `none` when the model is abandoned.
When the adapter call returns but the function string is invalid, the
success-path `log_usage` raises the `Function` enum ValueError inside the
same try block; the handler classifies that deterministic message like
any other exception. -/
def tryModel (env : Env) (function : String) (tokens_input : Nat) (model : String)
    (model_index : Nat) (rc : RetryConfig) :
    Nat → Nat → RunState → Option FallbackResult × RunState
  | 0, _, st => (none, st)
  | fuel + 1, retry_count, st =>
    let st1 : RunState := { st with calls := st.calls + 1 }
    match env.attempt st.calls with
    | .ok response =>
      if valid_function function then
        let tokens_output := estimate_tokens response
        let u := log_usage_record "openai" model function tokens_input tokens_output
          (env.respTime st.calls) "success" none
          (if 0 < model_index then some model else none) retry_count
        (some ⟨true, some response, some model, retry_count, none,
            if 0 < model_index then some ("Used fallback model " ++ model) else none⟩,
          { st1 with logs := st1.logs ++ [u], cb := st1.cb.record_success model })
      else
        if (classify_error (function_enum_error function)).2 = false then (none, st1)
        else if retry_count < rc.max_retries then
          let delay := calculate_delay retry_count rc.base_delay rc.max_delay
            rc.exponential_backoff (env.jitter st1.delays.length)
          tryModel env function tokens_input model model_index rc fuel (retry_count + 1)
            { st1 with delays := st1.delays ++ [delay] }
        else (none, { st1 with cb := st1.cb.record_failure env.now model })
    | .adapterError retryable =>
      if retryable = false then (none, st1)
      else if retry_count < rc.max_retries then
        let delay := calculate_delay retry_count rc.base_delay rc.max_delay
          rc.exponential_backoff (env.jitter st1.delays.length)
        tryModel env function tokens_input model model_index rc fuel (retry_count + 1)
          { st1 with delays := st1.delays ++ [delay] }
      else (none, { st1 with cb := st1.cb.record_failure env.now model })

/-- The `for model_index, model in enumerate(fallback_chain)` loop of
`execute_with_fallback`: skip a model when its breaker is open, otherwise
run its retry loop; stop at the first success. -/
def runChain (env : Env) (function : String) (tokens_input : Nat) :
    List String → Nat → RunState → Option FallbackResult × RunState
  | [], _, st => (none, st)
  | model :: rest, model_index, st =>
    let checked := st.cb.is_open env.now model
    let st1 : RunState := { st with cb := checked.2 }
    if checked.1 then runChain env function tokens_input rest (model_index + 1) st1
    else
      let rc := get_retry_config model
      match tryModel env function tokens_input model model_index rc (rc.max_retries + 1) 0 st1 with
      | (some result, st2) => (some result, st2)
      | (none, st2) => runChain env function tokens_input rest (model_index + 1) st2

/-- `FallbackManager.execute_with_fallback(function, prompt, ...)`.
Raises (`Except.error`) the configuration `ValueError` when the adapter
factory is absent, and the `Function` enum ValueError from the final
exhaustion `log_usage` call — performed outside any try block — when the
function string is invalid. A failure of the usage-log database write
never raises anywhere: `insert_usage` swallows it and returns False. -/
def execute_with_fallback (configs : String → Option FallbackConfig)
    (function prompt : String) (adapterProvided : Bool) (env : Env)
    (cb0 : CircuitBreaker) : Except String (FallbackResult × RunState) :=
  if adapterProvided = false then Except.error "llm_adapter_func is required"
  else
    match runChain env function (estimate_tokens prompt) (get_fallback_chain configs function)
        0 ⟨cb0, [], 0, []⟩ with
    | (some result, st) => Except.ok (result, st)
    | (none, st) =>
      if valid_function function then
        let u := log_usage_record "openai" "unknown" function (estimate_tokens prompt) 0 0
          "failed" (some "All fallback models failed") none 0
        Except.ok (⟨false, none, none, 0, some "All fallback models failed",
            some "Exhausted all fallback options"⟩,
          { st with logs := st.logs ++ [u] })
      else Except.error (function_enum_error function)

-- Bookkeeping lemmas for the retry loop and the chain loop.

theorem tryModel_none_logs (env : Env) (function : String) (tokens_input : Nat)
    (model : String) (model_index : Nat) (rc : RetryConfig) :
    ∀ (fuel retry_count : Nat) (st st2 : RunState),
      tryModel env function tokens_input model model_index rc fuel retry_count st =
        (none, st2) → st2.logs = st.logs := by
  intro fuel
  induction fuel with
  | zero =>
      intro retry_count st st2 h
      simp only [tryModel, Prod.mk.injEq] at h
      rw [← h.2]
  | succ fuel ih =>
      intro retry_count st st2 h
      simp only [tryModel] at h
      split at h
      · split at h
        · simp at h
        · split at h
          · simp only [Prod.mk.injEq] at h
            rw [← h.2]
          · split at h
            · have hrec := ih _ _ _ h
              exact hrec
            · simp only [Prod.mk.injEq] at h
              rw [← h.2]
      · split at h
        · simp only [Prod.mk.injEq] at h
          rw [← h.2]
        · split at h
          · have hrec := ih _ _ _ h
            exact hrec
          · simp only [Prod.mk.injEq] at h
            rw [← h.2]

theorem tryModel_some_success (env : Env) (function : String) (tokens_input : Nat)
    (model : String) (model_index : Nat) (rc : RetryConfig) :
    ∀ (fuel retry_count : Nat) (st st2 : RunState) (r : FallbackResult),
      tryModel env function tokens_input model model_index rc fuel retry_count st =
        (some r, st2) →
      r.success = true ∧ ∃ u, st2.logs = st.logs ++ [u] ∧ u.status = "success" := by
  intro fuel
  induction fuel with
  | zero =>
      intro retry_count st st2 r h
      simp only [tryModel] at h
      simp at h
  | succ fuel ih =>
      intro retry_count st st2 r h
      simp only [tryModel] at h
      split at h
      · split at h
        · simp only [Prod.mk.injEq, Option.some.injEq] at h
          obtain ⟨hr, hst⟩ := h
          subst hr
          subst hst
          exact ⟨rfl, _, rfl, rfl⟩
        · split at h
          · simp at h
          · split at h
            · have hrec := ih _ _ _ _ h
              exact hrec
            · simp at h
      · split at h
        · simp at h
        · split at h
          · have hrec := ih _ _ _ _ h
            exact hrec
          · simp at h

theorem runChain_none_logs (env : Env) (function : String) (tokens_input : Nat) :
    ∀ (chain : List String) (model_index : Nat) (st st2 : RunState),
      runChain env function tokens_input chain model_index st = (none, st2) →
      st2.logs = st.logs := by
  intro chain
  induction chain with
  | nil =>
      intro model_index st st2 h
      simp only [runChain, Prod.mk.injEq] at h
      rw [← h.2]
  | cons model rest ih =>
      intro model_index st st2 h
      simp only [runChain] at h
      split at h
      · have hrec := ih _ _ _ h
        exact hrec
      · split at h
        · simp at h
        · rename_i st3 htm
          have h3 := tryModel_none_logs env function tokens_input model model_index _ _ _ _ _ htm
          rw [ih _ _ _ h]
          exact h3
  
theorem runChain_some_success (env : Env) (function : String) (tokens_input : Nat) :
    ∀ (chain : List String) (model_index : Nat) (st st2 : RunState) (r : FallbackResult),
      runChain env function tokens_input chain model_index st = (some r, st2) →
      r.success = true ∧ ∃ u, st2.logs = st.logs ++ [u] ∧ u.status = "success" := by
  intro chain
  induction chain with
  | nil =>
      intro model_index st st2 r h
      simp only [runChain] at h
      simp at h
  | cons model rest ih =>
      intro model_index st st2 r h
      simp only [runChain] at h
      split at h
      · have hrec := ih _ _ _ _ h
        exact hrec
      · split at h
        · rename_i result st3 htm
          simp only [Prod.mk.injEq, Option.some.injEq] at h
          obtain ⟨hr, hst⟩ := h
          subst hr
          subst hst
          have hm := tryModel_some_success env function tokens_input model model_index _ _ _ _ _ _ htm
          exact hm
        · rename_i st3 htm
          obtain ⟨hsucc, u, hlogs, hstat⟩ := ih _ _ _ _ h
          have h3 := tryModel_none_logs env function tokens_input model model_index _ _ _ _ _ htm
          have h4 : st3.logs = st.logs := h3
          exact ⟨hsucc, u, by rw [hlogs, h4], hstat⟩

theorem tryModel_allfail (env : Env) (function : String) (tokens_input : Nat) (model : String)
    (model_index : Nat) (rc : RetryConfig)
    (hfail : ∀ k, env.attempt k = AttemptOutcome.adapterError true) :
    ∀ (fuel retry_count : Nat) (st : RunState), 1 ≤ fuel →
      retry_count + fuel = rc.max_retries + 1 →
      ∃ st2, tryModel env function tokens_input model model_index rc fuel retry_count st =
          (none, st2) ∧
        st2.logs = st.logs ∧ st2.calls = st.calls + fuel ∧
        st2.cb = st.cb.record_failure env.now model := by
  intro fuel
  induction fuel with
  | zero =>
      intro retry_count st h1 h2
      exact absurd h1 (by norm_num)
  | succ fuel ih =>
      intro retry_count st h1 h2
      simp only [tryModel, hfail st.calls]
      by_cases hlt : retry_count < rc.max_retries
      · rw [if_neg (by simp), if_pos hlt]
        have hfuel : 1 ≤ fuel := by omega
        have harith : (retry_count + 1) + fuel = rc.max_retries + 1 := by omega
        obtain ⟨st2, heq, hlogs, hcalls, hcb⟩ := ih (retry_count + 1) _ hfuel harith
        refine ⟨st2, heq, ?_, ?_, ?_⟩
        · exact hlogs
        · have hc : st2.calls = st.calls + 1 + fuel := hcalls
          omega
        · exact hcb
      · have hf0 : fuel = 0 := by omega
        subst hf0
        rw [if_neg (by simp), if_neg hlt]
        exact ⟨_, rfl, rfl, rfl, rfl⟩

theorem runChain_allfail (env : Env) (function : String) (tokens_input : Nat)
    (hfail : ∀ k, env.attempt k = AttemptOutcome.adapterError true) :
    ∀ (chain : List String) (model_index : Nat) (st : RunState),
      (∀ m ∈ chain, st.cb.breakers m = none) → chain.Nodup →
      ∃ st2, runChain env function tokens_input chain model_index st = (none, st2) ∧
        st2.logs = st.logs ∧
        st2.calls = st.calls +
          (chain.map (fun m => (get_retry_config m).max_retries + 1)).sum := by
  intro chain
  induction chain with
  | nil =>
      intro model_index st hnone hnd
      exact ⟨st, rfl, rfl, by simp⟩
  | cons model rest ih =>
      intro model_index st hnone hnd
      have hopen : st.cb.is_open env.now model = (false, st.cb) :=
        is_open_of_no_entry _ _ _ (hnone model (by simp))
      obtain ⟨st2, heq, hlogs, hcalls, hcb⟩ :=
        tryModel_allfail env function tokens_input model model_index (get_retry_config model)
          hfail ((get_retry_config model).max_retries + 1) 0
          { st with cb := (st.cb.is_open env.now model).2 } (by omega) (by omega)
      have hnone2 : ∀ m ∈ rest, st2.cb.breakers m = none := by
        intro m hm
        have hne : m ≠ model := by
          intro hcontra
          subst hcontra
          exact (List.nodup_cons.mp hnd).1 hm
        have hcb2 : st2.cb =
            ({ st with cb := (st.cb.is_open env.now model).2 } : RunState).cb.record_failure
              env.now model := hcb
        rw [hcb2, record_failure_other _ _ _ _ hne, hopen]
        exact hnone m (List.mem_cons_of_mem _ hm)
      obtain ⟨st3, heq3, hlogs3, hcalls3⟩ := ih (model_index + 1) st2 hnone2
        (List.nodup_cons.mp hnd).2
      refine ⟨st3, ?_, ?_, ?_⟩
      · simp only [runChain]
        rw [if_neg (by simp [hopen])]
        rw [heq]
        exact heq3
      · rw [hlogs3]
        exact hlogs
      · rw [hcalls3]
        have hc : st2.calls = st.calls + ((get_retry_config model).max_retries + 1) := hcalls
        simp only [List.map_cons, List.sum_cons]
        omega

/-- Environment where every attempt raises a retryable adapter error. -/
def envAllFail : Env :=
  ⟨fun _ => AttemptOutcome.adapterError true, fun _ => 0, fun _ => 0, 0⟩

/-- Environment where every adapter call returns the response "hello!!". -/
def envFirstOk : Env :=
  ⟨fun _ => AttemptOutcome.ok "hello!!", fun _ => 0, fun _ => 0, 0⟩

/-- Environment where every attempt raises a non-retryable adapter error. -/
def envNonRetry : Env :=
  ⟨fun _ => AttemptOutcome.adapterError false, fun _ => 0, fun _ => 0, 0⟩

/-- Claim C2: if every model in the resolved chain raises a retryable error
on every attempt (no breaker entry exists for any chain model, so no
breaker is open when each model is reached, and the function name is a
valid `Function` enum value, so the exhaustion log cannot raise),
`execute_with_fallback`
returns `success=false` with `error_message` "All fallback models failed"
and `fallback_reason` "Exhausted all fallback options", after exactly
`sum(max_retries_i + 1)` adapter calls taken from the per-model
`RetryLogic` table, and exactly one failed usage row with
`model="unknown"` and `tokens_output=0` is persisted for the whole
invocation. -/
theorem exhaustion_spec (configs : String → Option FallbackConfig)
    (function prompt : String) (env : Env) (cb0 : CircuitBreaker)
    (hfail : ∀ k, env.attempt k = AttemptOutcome.adapterError true)
    (hvalid : valid_function function = true)
    (hnone : ∀ m ∈ get_fallback_chain configs function, cb0.breakers m = none)
    (hnd : (get_fallback_chain configs function).Nodup) :
    ∃ st, execute_with_fallback configs function prompt true env cb0 =
        Except.ok (⟨false, none, none, 0, some "All fallback models failed",
          some "Exhausted all fallback options"⟩, st) ∧
      st.calls = ((get_fallback_chain configs function).map
        (fun m => (get_retry_config m).max_retries + 1)).sum ∧
      st.logs = [log_usage_record "openai" "unknown" function (estimate_tokens prompt) 0 0
        "failed" (some "All fallback models failed") none 0] := by
  obtain ⟨st2, heq, hlogs, hcalls⟩ :=
    runChain_allfail env function (estimate_tokens prompt) hfail
      (get_fallback_chain configs function) 0 ⟨cb0, [], 0, []⟩ hnone hnd
  refine ⟨{ st2 with logs := st2.logs ++
      [log_usage_record "openai" "unknown" function (estimate_tokens prompt) 0 0
        "failed" (some "All fallback models failed") none 0] }, ?_, ?_, ?_⟩
  · unfold execute_with_fallback
    rw [if_neg (by simp)]
    rw [heq, hvalid]
    simp
  · have hc : st2.calls = 0 + ((get_fallback_chain configs function).map
        (fun m => (get_retry_config m).max_retries + 1)).sum := hcalls
    simp only [RunState.calls] at hc ⊢
    omega
  · have hl : st2.logs = ([] : List TokenUsage) := hlogs
    simp [hl]

/-- Witness for `exhaustion_spec`: function "feedback" with the default
config table, a fresh breaker, and every attempt failing retryably. -/
theorem exhaustion_witness :
    ∃ st, execute_with_fallback default_fallback_configs "feedback" "" true envAllFail
        (CircuitBreaker.init 5 300) =
        Except.ok (⟨false, none, none, 0, some "All fallback models failed",
          some "Exhausted all fallback options"⟩, st) ∧
      st.calls = ((get_fallback_chain default_fallback_configs "feedback").map
        (fun m => (get_retry_config m).max_retries + 1)).sum ∧
      st.logs = [log_usage_record "openai" "unknown" "feedback" (estimate_tokens "") 0 0
        "failed" (some "All fallback models failed") none 0] :=
  exhaustion_spec default_fallback_configs "feedback" "" envAllFail
    (CircuitBreaker.init 5 300) (fun _ => rfl) rfl (fun _ _ => rfl) (by decide)

/-- Claim C1 (amended): every invocation with a valid function name logs
exactly one usage row — the success row of the one successful attempt, or
the single exhaustion row with `model="unknown"` when no model succeeds.
Attempts that raise are not individually logged (the original claim of
one row per physical attempt fails). -/
theorem one_usage_row_per_invocation (configs : String → Option FallbackConfig)
    (function prompt : String) (env : Env) (cb0 : CircuitBreaker)
    (hvalid : valid_function function = true) :
    (∀ r st, execute_with_fallback configs function prompt true env cb0 = Except.ok (r, st) →
      st.logs.length = 1 ∧
      (r.success = true → ∃ u, st.logs = [u] ∧ u.status = "success") ∧
      (r.success = false → st.logs =
        [log_usage_record "openai" "unknown" function (estimate_tokens prompt) 0 0 "failed"
          (some "All fallback models failed") none 0])) ∧
    ∃ r st, execute_with_fallback configs function prompt true env cb0 = Except.ok (r, st) := by
  constructor
  · intro r st heq
    unfold execute_with_fallback at heq
    rw [if_neg (by simp)] at heq
    split at heq
    · rename_i result st3 hrun
      simp only [Except.ok.injEq, Prod.mk.injEq] at heq
      obtain ⟨hr, hst⟩ := heq
      subst hr
      subst hst
      obtain ⟨hsucc, u, hlogs, hstat⟩ :=
        runChain_some_success env function (estimate_tokens prompt) _ _ _ _ _ hrun
      have hlogs2 : st3.logs = [u] := by
        have : st3.logs = ([] : List TokenUsage) ++ [u] := hlogs
        simpa using this
      refine ⟨by rw [hlogs2]; rfl, fun _ => ⟨u, hlogs2, hstat⟩, fun hfalse => ?_⟩
      rw [hsucc] at hfalse
      simp at hfalse
    · rename_i st3 hrun
      rw [hvalid] at heq
      simp only [if_true, Except.ok.injEq, Prod.mk.injEq] at heq
      obtain ⟨hr, hst⟩ := heq
      subst hr
      subst hst
      have hlogs : st3.logs = ([] : List TokenUsage) :=
        runChain_none_logs env function (estimate_tokens prompt) _ _ _ _ hrun
      refine ⟨by simp [hlogs], fun htrue => ?_, fun _ => by simp [hlogs]⟩
      simp at htrue
  · unfold execute_with_fallback
    rw [if_neg (by simp)]
    rcases hrun : runChain env function (estimate_tokens prompt)
        (get_fallback_chain configs function) 0 ⟨cb0, [], 0, []⟩ with ⟨res, st3⟩
    cases res with
    | some result => exact ⟨result, st3, rfl⟩
    | none =>
        rw [hvalid]
        exact ⟨_, _, rfl⟩

/-- Witness for `one_usage_row_per_invocation`: the valid function
"guidance" with a fresh breaker and the first attempt succeeding. -/
theorem one_usage_row_witness :
    (∀ r st, execute_with_fallback default_fallback_configs "guidance" "abcd" true envFirstOk
        (CircuitBreaker.init 5 300) = Except.ok (r, st) →
      st.logs.length = 1 ∧
      (r.success = true → ∃ u, st.logs = [u] ∧ u.status = "success") ∧
      (r.success = false → st.logs =
        [log_usage_record "openai" "unknown" "guidance" (estimate_tokens "abcd") 0 0 "failed"
          (some "All fallback models failed") none 0])) ∧
    ∃ r st, execute_with_fallback default_fallback_configs "guidance" "abcd" true envFirstOk
        (CircuitBreaker.init 5 300) = Except.ok (r, st) :=
  one_usage_row_per_invocation default_fallback_configs "guidance" "abcd" envFirstOk
    (CircuitBreaker.init 5 300) rfl

/-- Counterexample to claim C1 as stated: with the valid function
"feedback" (chain gpt-4o, gpt-4o-mini, gpt-3.5-turbo with 2, 3 and 5
retries in the RetryLogic table) and every attempt raising a retryable
error, the invocation makes 3 + 4 + 6 = 13 physical adapter calls but
logs exactly 1 usage row (the final exhaustion row), not one row per
attempt. The input is realizable: "feedback" passes the Function enum
validation, so the final log_usage cannot raise, and a database write
failure is swallowed inside insert_usage. -/
theorem one_row_per_attempt_counterexample :
    (execute_with_fallback default_fallback_configs "feedback" "abcdefgh" true envAllFail
        (CircuitBreaker.init 5 300)).toOption.map (fun p => (p.2.calls, p.2.logs.length)) =
      some (13, 1) ∧ (13 : Nat) ≠ 1 := by
  constructor
  · rfl
  · decide

/-- Claim C3 (amended): every error raised inside the retry loop — from
the LLM call or from the `Function` enum validation that `log_usage`
performs — is caught there and never re-raised. A failure of the
usage-log database write never raises at all (`insert_usage` swallows it
and returns False), so it neither propagates nor changes the
FallbackResult. For a function name accepted by the `Function` enum,
`execute_with_fallback` never raises: the caller observes only a
FallbackResult, a failing one carrying `error_message` "All fallback
models failed", and the sole raised error is the configuration ValueError
when `llm_adapter_func` is absent. (The original claim fails only for an
invalid function name: then `log_usage`'s deterministic enum ValueError,
raised by the final exhaustion log outside any try block, propagates to
the caller even though the adapter factory was supplied.) -/
theorem errors_contained (configs : String → Option FallbackConfig)
    (function prompt : String) (env : Env) (cb0 : CircuitBreaker)
    (hvalid : valid_function function = true) :
    (∃ r st, execute_with_fallback configs function prompt true env cb0 = Except.ok (r, st) ∧
      (r.success = false →
        r.error_message = some "All fallback models failed" ∧
        r.fallback_reason = some "Exhausted all fallback options")) ∧
    execute_with_fallback configs function prompt false env cb0 =
      Except.error "llm_adapter_func is required" := by
  constructor
  · unfold execute_with_fallback
    rw [if_neg (by simp)]
    rcases hrun : runChain env function (estimate_tokens prompt)
        (get_fallback_chain configs function) 0 ⟨cb0, [], 0, []⟩ with ⟨res, st3⟩
    cases res with
    | some result =>
        refine ⟨result, st3, rfl, fun hfalse => ?_⟩
        obtain ⟨hsucc, _⟩ :=
          runChain_some_success env function (estimate_tokens prompt) _ _ _ _ _ hrun
        rw [hsucc] at hfalse
        simp at hfalse
    | none =>
        rw [hvalid]
        exact ⟨_, _, rfl, fun _ => ⟨rfl, rfl⟩⟩
  · unfold execute_with_fallback
    rw [if_pos rfl]

/-- Witness for `errors_contained`: the valid function "section_check",
fresh breaker, every attempt failing retryably. -/
theorem errors_contained_witness :
    (∃ r st, execute_with_fallback default_fallback_configs "section_check" "xy" true envAllFail
        (CircuitBreaker.init 5 300) = Except.ok (r, st) ∧
      (r.success = false →
        r.error_message = some "All fallback models failed" ∧
        r.fallback_reason = some "Exhausted all fallback options")) ∧
    execute_with_fallback default_fallback_configs "section_check" "xy" false envAllFail
      (CircuitBreaker.init 5 300) = Except.error "llm_adapter_func is required" :=
  errors_contained default_fallback_configs "section_check" "xy" envAllFail
    (CircuitBreaker.init 5 300) rfl

/-- Counterexample to claim C3 as stated: with the invalid function name
"summarize" and every adapter call succeeding (`envFirstOk`), the
invocation raises even though `llm_adapter_func` is supplied — refuting
that the sole raised error is the missing-adapter ValueError. Each
success-path `log_usage` raises the deterministic `Function` enum
ValueError inside the try block; its message classifies as
("unknown", retryable), so the loop retries and exhausts, and the final
exhaustion `log_usage` outside any try raises the same ValueError, which
propagates to the caller. -/
theorem invalid_function_raise_counterexample :
    execute_with_fallback default_fallback_configs "summarize" "test" true envFirstOk
        (CircuitBreaker.init 5 300) =
      Except.error "'summarize' is not a valid Function" ∧
    (classify_error (function_enum_error "summarize")).2 = true := by
  constructor
  · rfl
  · rfl

/-- Claim C7: a non-retryable error abandons the model after exactly one
attempt: the retry loop returns immediately with only the call counter
advanced (no usage row, no delay, no breaker update), and the chain run on
`model :: rest` (when the breaker check for `model` returns false) equals
the run on `rest` from a state with exactly one more call, the breaker
exactly as the `is_open` read left it, and logs and delays untouched. -/
theorem nonretryable_short_circuit (env : Env) (function : String) (tokens_input : Nat)
    (model : String) (model_index : Nat) (rc : RetryConfig) (rest : List String)
    (st : RunState) (herr : env.attempt st.calls = AttemptOutcome.adapterError false) :
    (∀ fuel retry_count,
      tryModel env function tokens_input model model_index rc (fuel + 1) retry_count st =
        (none, { st with calls := st.calls + 1 })) ∧
    ((st.cb.is_open env.now model).1 = false →
      runChain env function tokens_input (model :: rest) model_index st =
        runChain env function tokens_input rest (model_index + 1)
          { st with
            cb := (st.cb.is_open env.now model).2
            calls := st.calls + 1 }) := by
  have key : ∀ (rcx : RetryConfig) (fuel retry_count : Nat) (stx : RunState),
      env.attempt stx.calls = AttemptOutcome.adapterError false →
      tryModel env function tokens_input model model_index rcx (fuel + 1) retry_count stx =
        (none, { stx with calls := stx.calls + 1 }) := by
    intro rcx fuel retry_count stx hx
    simp only [tryModel, hx, if_true]
  constructor
  · intro fuel retry_count
    exact key rc fuel retry_count st herr
  · intro hfalse
    simp only [runChain]
    rw [if_neg (by simp [hfalse])]
    rw [key (get_retry_config model) (get_retry_config model).max_retries 0
      { st with cb := (st.cb.is_open env.now model).2 } herr]

/-- Fresh run state holding a default breaker, used by witnesses. -/
def st0 : RunState := ⟨CircuitBreaker.init 5 300, [], 0, []⟩

/-- Witness for `nonretryable_short_circuit`: fresh state, model "gpt-4o"
followed by "gpt-4o-mini", every attempt raising a non-retryable error. -/
theorem nonretryable_witness :
    (∀ fuel retry_count,
      tryModel envNonRetry "f" 0 "gpt-4o" 0 (get_retry_config "gpt-4o") (fuel + 1)
          retry_count st0 = (none, { st0 with calls := st0.calls + 1 })) ∧
    runChain envNonRetry "f" 0 ("gpt-4o" :: ["gpt-4o-mini"]) 0 st0 =
      runChain envNonRetry "f" 0 ["gpt-4o-mini"] (0 + 1)
        { st0 with
          cb := (st0.cb.is_open envNonRetry.now "gpt-4o").2
          calls := st0.calls + 1 } :=
  ⟨(nonretryable_short_circuit envNonRetry "f" 0 "gpt-4o" 0 (get_retry_config "gpt-4o")
      ["gpt-4o-mini"] st0 rfl).1,
   (nonretryable_short_circuit envNonRetry "f" 0 "gpt-4o" 0 (get_retry_config "gpt-4o")
      ["gpt-4o-mini"] st0 rfl).2 rfl⟩

theorem runChain_head_success (env : Env) (function : String) (tokens_input : Nat)
    (A : String) (rest : List String) (model_index : Nat) (st : RunState) (response : String)
    (hvalid : valid_function function = true)
    (hok : env.attempt st.calls = AttemptOutcome.ok response)
    (hcb : (st.cb.is_open env.now A).1 = false) :
    runChain env function tokens_input (A :: rest) model_index st =
      (some ⟨true, some response, some A, 0, none,
          if 0 < model_index then some ("Used fallback model " ++ A) else none⟩,
        { st with
          cb := ((st.cb.is_open env.now A).2).record_success A
          logs := st.logs ++ [log_usage_record "openai" A function tokens_input
            (estimate_tokens response) (env.respTime st.calls) "success" none
            (if 0 < model_index then some A else none) 0]
          calls := st.calls + 1 }) := by
  simp only [runChain]
  rw [if_neg (by simp [hcb])]
  simp only [tryModel, hok, hvalid, if_true]

/-- Claim C8: if the resolved chain is `A :: rest`, the function name is a
valid `Function` enum value (so the success-path log cannot raise), the
breaker check for `A` returns false, and attempt 0 succeeds,
`execute_with_fallback`
returns immediately with `success=true`, `model_used=A`, `retry_count=0`
and a null `fallback_reason`; exactly one adapter call is made, exactly
one success row with a null `fallback_model` is persisted, no delay is
slept, and the only breaker updates are the `is_open` read on `A` and
`record_success(A)` — no later chain model is ever touched. -/
theorem first_attempt_success (configs : String → Option FallbackConfig)
    (function prompt response A : String) (rest : List String) (env : Env)
    (cb0 : CircuitBreaker) (hvalid : valid_function function = true)
    (hchain : get_fallback_chain configs function = A :: rest)
    (hok : env.attempt 0 = AttemptOutcome.ok response)
    (hcb : (cb0.is_open env.now A).1 = false) :
    execute_with_fallback configs function prompt true env cb0 =
      Except.ok (⟨true, some response, some A, 0, none, none⟩,
        ⟨((cb0.is_open env.now A).2).record_success A,
          [log_usage_record "openai" A function (estimate_tokens prompt)
            (estimate_tokens response) (env.respTime 0) "success" none none 0],
          1, []⟩) := by
  unfold execute_with_fallback
  rw [if_neg (by simp), hchain]
  rw [runChain_head_success env function (estimate_tokens prompt) A rest 0
    ⟨cb0, [], 0, []⟩ response hvalid hok hcb]
  simp

/-- Witness for `first_attempt_success`: function "guidance" (chain head
"gpt-4o-mini"), fresh breaker, first attempt returning "hello!!". -/
theorem first_attempt_success_witness :
    execute_with_fallback default_fallback_configs "guidance" "abcd" true envFirstOk
        (CircuitBreaker.init 5 300) =
      Except.ok (⟨true, some "hello!!", some "gpt-4o-mini", 0, none, none⟩,
        ⟨(((CircuitBreaker.init 5 300).is_open envFirstOk.now "gpt-4o-mini").2).record_success
            "gpt-4o-mini",
          [log_usage_record "openai" "gpt-4o-mini" "guidance" (estimate_tokens "abcd")
            (estimate_tokens "hello!!") (envFirstOk.respTime 0) "success" none none 0],
          1, []⟩) :=
  first_attempt_success default_fallback_configs "guidance" "abcd" "hello!!" "gpt-4o-mini"
    ["gpt-3.5-turbo"] envFirstOk (CircuitBreaker.init 5 300) rfl rfl rfl rfl

/-- The `FallbackConfig` fields that are not the per-function retry
fields: the function tag, the primary model, and the fallback chain. -/
def chainFields (c : FallbackConfig) : String × String × List String :=
  (c.function, c.primary_model, c.fallback_chain)

/-- Claim C10: the observable behavior of `execute_with_fallback` — the
whole returned value, including attempt counts, persisted rows, delays
slept and the `FallbackResult` — is identical for any two config tables
agreeing on everything except the per-function retry fields
`max_retries_per_model`, `base_delay_seconds`, `max_delay_seconds` and
`exponential_backoff`: retry counts and delays come only from the
per-model `RetryLogic` table. -/
theorem retry_fields_do_not_influence (configs1 configs2 : String → Option FallbackConfig)
    (h : ∀ f, (configs1 f).map chainFields = (configs2 f).map chainFields)
    (function prompt : String) (adapterProvided : Bool) (env : Env) (cb0 : CircuitBreaker) :
    execute_with_fallback configs1 function prompt adapterProvided env cb0 =
    execute_with_fallback configs2 function prompt adapterProvided env cb0 := by
  have hchain : get_fallback_chain configs1 function = get_fallback_chain configs2 function := by
    have hf := h function
    unfold get_fallback_chain
    cases h1 : configs1 function with
    | none =>
        cases h2 : configs2 function with
        | none => rfl
        | some c2 => rw [h1, h2] at hf; simp at hf
    | some c1 =>
        cases h2 : configs2 function with
        | none => rw [h1, h2] at hf; simp at hf
        | some c2 =>
            rw [h1, h2] at hf
            simp [chainFields] at hf
            show c1.primary_model :: c1.fallback_chain = c2.primary_model :: c2.fallback_chain
            rw [hf.2.1, hf.2.2]
  unfold execute_with_fallback
  rw [hchain]

/-- A config table equal to the default one except that every per-function
retry field is changed. -/
def default_fallback_configs_alt (function : String) : Option FallbackConfig :=
  (default_fallback_configs function).map fun c =>
    { c with
      max_retries_per_model := 9
      base_delay_seconds := 7
      max_delay_seconds := 50
      exponential_backoff := false }

/-- Witness for `retry_fields_do_not_influence`: the default table against
the altered table, on "feedback" with every attempt failing retryably. -/
theorem retry_fields_witness :
    execute_with_fallback default_fallback_configs "feedback" "prompt" true envAllFail
      (CircuitBreaker.init 5 300) =
    execute_with_fallback default_fallback_configs_alt "feedback" "prompt" true envAllFail
      (CircuitBreaker.init 5 300) :=
  retry_fields_do_not_influence default_fallback_configs default_fallback_configs_alt
    (fun f => by
      unfold default_fallback_configs_alt
      cases default_fallback_configs f <;> rfl)
    "feedback" "prompt" true envAllFail (CircuitBreaker.init 5 300)
